import Mathlib

/-!
Verification of the vinted-telegram-bot ingestion pipeline (src/bot.py).

The program is a single Python file.  We shallowly embed the parts of it the
claims are about: JSON-ish values (`Val`), Python truthiness and `or`
(`Val.truthy`, `pyOr`), the normalizer helpers (`extract_photo_url`, price
normalization), the dedup fingerprint (`item_hash`), `process_item` as a
state-and-effect-trace transformer, the bounded recent cache (`cacheInsert`),
the per-spec fetch/normalize step of `scraper_loop` (`processSpec`), and the
URL builder (`build_url`).
-/

namespace VintedBot

/-- A JSON-ish Python value, as handled by bot.py: `None`, numbers, strings,
lists and dicts.  The numeric payloads appearing in the claims are integers;
decimal numbers arrive as strings in the API responses modelled here. -/
inductive Val where
  | vnull : Val
  | vint : Int → Val
  | vstr : String → Val
  | vlist : List Val → Val
  | vdict : List (String × Val) → Val

/-- Python truthiness: `None`, `0`, `""`, `[]` and `{}` (written here as the
empty dict) are falsy, everything else truthy. -/
def Val.truthy : Val → Bool
  | .vnull => false
  | .vint n => n != 0
  | .vstr s => !s.isEmpty
  | .vlist xs => !xs.isEmpty
  | .vdict kvs => !kvs.isEmpty

/-- Python `a or b` on values: `a` if truthy, else `b`. -/
def pyOr (a b : Val) : Val := if a.truthy then a else b

/-- `d.get(k)` on a dict: the value under `k`, or `None` when absent.  The
code only calls `.get` on values that are dicts; on a non-dict we return
`None`. -/
def Val.get (v : Val) (k : String) : Val :=
  match v with
  | .vdict kvs =>
    match kvs.find? (fun kv => kv.1 == k) with
    | some kv => kv.2
    | none => .vnull
  | _ => .vnull

/-- `d.get(k, dflt)` on a dict. -/
def Val.getD (v : Val) (k : String) (dflt : Val) : Val :=
  match v with
  | .vdict kvs =>
    match kvs.find? (fun kv => kv.1 == k) with
    | some kv => kv.2
    | none => dflt
  | _ => dflt

/-- Python `k in d` for a dict. -/
def Val.hasKey (v : Val) (k : String) : Bool :=
  match v with
  | .vdict kvs => kvs.any (fun kv => kv.1 == k)
  | _ => false

/-- Python `str(x)` for the values that reach it in bot.py.  The claims only
ever observe `str` on `None`, integers and strings; the placeholder renderings
of lists/dicts stand for Python's container reprs, which no claim inspects. -/
def pyStr : Val → String
  | .vnull => "None"
  | .vint n => toString n
  | .vstr s => s
  | .vlist _ => "[...]"
  | .vdict _ => "dict-repr"

/-- Numeric value of a list of decimal digit characters (0 for the empty
list, as in Python where `"19."` parses and the fractional digits may be
empty). -/
def digitsVal (cs : List Char) : Nat :=
  cs.foldl (fun acc c => acc * 10 + (c.toNat - '0'.toNat)) 0

/-- An exact decimal number, carried as numerator over a positive power-of-ten
denominator (no floating point is modelled; on the values the claims exercise
the exact decimal and the nearest binary double format identically). -/
structure DecNum where
  num : Int
  den : Nat
deriving Repr, DecidableEq

/-- Modelled subset of Python `float(s)` on strings: an optional sign, then
decimal digits with at most one fractional part, at least one digit overall.
Exponents, `inf`/`nan` and surrounding whitespace — which Python also accepts
but which never occur in the spec's examples — are not modelled.  Returns the
exact decimal value, `none` when the string does not parse. -/
def parseDecimal (s : String) : Option DecNum :=
  let cs := s.toList
  let sign : Int := if cs.head? = some '-' then -1 else 1
  let rest := if cs.head? = some '-' || cs.head? = some '+' then cs.drop 1 else cs
  let intPart := rest.takeWhile (·.isDigit)
  let rest2 := rest.drop intPart.length
  match rest2 with
  | [] =>
    if intPart.isEmpty then none
    else some ⟨sign * (digitsVal intPart : Int), 1⟩
  | '.' :: frac =>
    if frac.all (·.isDigit) && !(intPart.isEmpty && frac.isEmpty) then
      some ⟨sign * ((digitsVal intPart : Int) * 10 ^ frac.length + (digitsVal frac : Int)), 10 ^ frac.length⟩
    else none
  | _ => none

/-- Python `float(x)`: numbers convert directly, strings are parsed, anything
else (None, lists, dicts) raises `TypeError` — modelled as `none`, which the
caller's `except` branch turns into `str(x)`. -/
def pyFloat : Val → Option DecNum
  | .vint n => some ⟨n, 1⟩
  | .vstr s => parseDecimal s
  | _ => none

/-- Python `f"{x:.2f}"` on the exact decimal carried by the model: round to
two decimals (nearest; the tie-breaking rule never fires on the claims'
values) and print sign, integer part, a dot, and exactly two digit
characters. -/
def formatTwoDec (d : DecNum) : String :=
  let sgn := if d.num < 0 then "-" else ""
  let m := (d.num.natAbs * 100 + d.den / 2) / d.den
  sgn ++ toString (m / 100) ++ "." ++ String.mk [Nat.digitChar (m / 10 % 10), Nat.digitChar (m % 10)]

/-- bot.py lines 193–196: `price = item.get("price") or item.get("price_amount")
or "N/A"`, then if the result is a dict, `price = price.get("amount") or
price.get("value") or price.get("raw") or "N/A"`. -/
def resolvePrice (item : Val) : Val :=
  let price := pyOr (item.get "price") (pyOr (item.get "price_amount") (.vstr "N/A"))
  match price with
  | .vdict _ => pyOr (price.get "amount") (pyOr (price.get "value") (pyOr (price.get "raw") (.vstr "N/A")))
  | _ => price

/-- bot.py lines 197–201: `price_str = f"{float(price):.2f}"`, falling back to
`str(price)` when `float` raises. -/
def priceText (item : Val) : String :=
  match pyFloat (resolvePrice item) with
  | some q => formatTwoDec q
  | none => pyStr (resolvePrice item)

/-- The photo-dict keys tried, in order, for entries of the `photos` list
(bot.py line 141). -/
def photoKeys : List String := ["url_fullxfull", "url_full", "url", "xlarge", "thumb"]

/-- The photo-dict keys tried, in order, for the `main_photo`/`photo` fallback
(bot.py line 149) — note `thumb` is absent here. -/
def mainPhotoKeys : List String := ["url_fullxfull", "url_full", "url", "xlarge"]

/-- `for k in keys: if p.get(k): return p.get(k)` — first truthy value among
the listed keys. -/
def firstTruthyKey (keys : List String) (p : Val) : Option Val :=
  keys.findSome? fun k => if (p.get k).truthy then some (p.get k) else none

/-- The `for p in photos` loop of bot.py lines 139–145: dict entries yield
their first truthy photo key, a bare string entry is returned as-is, any
other entry is skipped. -/
def scanPhotoList : List Val → Option Val
  | [] => none
  | p :: rest =>
    match p with
    | .vdict kvs =>
      match firstTruthyKey photoKeys (.vdict kvs) with
      | some v => some v
      | none => scanPhotoList rest
    | .vstr s => some (.vstr s)
    | _ => scanPhotoList rest

/-- bot.py `extract_photo_url` (lines 131–154): falsy item gives None; then
the `photos`/`photos_urls` list is scanned; then the `main_photo`/`photo`/
`photos_urls` fallback, as a dict (keys without `thumb`) or a bare string. -/
def extract_photo_url (item : Val) : Option Val :=
  if !item.truthy then none
  else
    let photos := pyOr (item.get "photos") (pyOr (item.get "photos_urls") (.vlist []))
    let fromList :=
      match photos with
      | .vlist xs => if xs.isEmpty then none else scanPhotoList xs
      | _ => none
    match fromList with
    | some v => some v
    | none =>
      let main := pyOr (item.get "main_photo") (pyOr (item.get "photo") (item.get "photos_urls"))
      match main with
      | .vdict kvs => firstTruthyKey mainPhotoKeys (.vdict kvs)
      | .vstr s => some (.vstr s)
      | _ => none

/-- Python `s.replace(" ", "+")`: the pattern is a single character, so the
replacement maps each space character to `+`. -/
def replaceSpacePlus (s : String) : String :=
  String.mk (s.toList.map fun c => if c = ' ' then '+' else c)

/-- bot.py `build_url` (lines 124–126): join brand and category with a space,
replace spaces by `+`, interpolate into the catalog URL with the price
ceiling. -/
def build_url (brand : String) (category : String) (price : Int) : String :=
  let q := replaceSpacePlus (brand ++ " " ++ category)
  "https://www.vinted.it/api/v2/catalog/items?search_text=" ++ q ++ "&price_to=" ++ toString price

/-- CPython salts `hash` on `str` with the per-process `PYTHONHASHSEED`
(random by default): the hash of a string is deterministic within one process
but not across process restarts.  We model it as a polynomial hash of the
string's characters mixed with an explicit per-process `seed`. -/
def pyStrHash (seed : Nat) (s : String) : Nat :=
  s.toList.foldl (fun acc c => (acc * 1000003 + c.toNat + 1) % 2 ^ 64) ((seed * 2654435761 + 7) % 2 ^ 64)

/-- CPython `hash` per value kind: strings are salted per process, integers
hash unsalted modulo the Mersenne prime `2^61 - 1`, `None` has a fixed hash,
and lists/dicts are unhashable (`TypeError`, modelled as `none`). -/
def pyHashVal (seed : Nat) : Val → Option Nat
  | .vstr s => some (pyStrHash seed s)
  | .vint n => some (n.natAbs % (2 ^ 61 - 1))
  | .vnull => some 5740354900026072187
  | .vlist _ => none
  | .vdict _ => none

/-- CPython `hash` on a tuple: a deterministic (unsalted) combination of the
component hashes — per-process salt enters only through `str` components. -/
def pyTupleHash (hs : List Nat) : Nat :=
  hs.foldl (fun acc h => (acc * 31 + h + 1) % 2 ^ 64) 1009

/-- bot.py `item_hash` (lines 157–164): fingerprint
`str(abs(hash((str(item.get("id","")), item.get("title","") or "",
str(item.get("price","") or "")))))`.  `seed` is the process's hash salt;
`fallback` models `str(time.time())`, returned by the `except` branch when the
tuple is unhashable (an unhashable `title`).  Our hash values are already
non-negative, so `abs` is the identity. -/
def item_hash (seed : Nat) (fallback : String) (item : Val) : String :=
  let id_ := pyStr (item.getD "id" (.vstr ""))
  let title := pyOr (item.getD "title" (.vstr "")) (.vstr "")
  let price := pyStr (pyOr (item.getD "price" (.vstr "")) (.vstr ""))
  match pyHashVal seed title with
  | some th => toString (pyTupleHash [pyStrHash seed id_, th, pyStrHash seed price])
  | none => fallback

/-- A search spec from the SEARCHES table (bot.py lines 90–122). -/
structure SearchSpec where
  brand : String
  category : String
  price : Int
deriving Repr, DecidableEq

/-- The dict pushed onto `recent_items` for the dashboard (bot.py lines
238–240).  The raw `id` value is kept as a `Val` like in the source. -/
structure RecentRec where
  rid : Val
  brand : String
  category : String
  price : String
  title : String
  sizes : String
  condition : String
  link : String
  timestamp : String
  state : String

/-- The module-level mutable state of bot.py that `process_item` touches:
the in-memory `seen_hashes` set (modelled as the list of inserted hashes, with
membership as the set-membership check), the lines of the persisted
`seen_items.txt` in append order, and the `recent_items` dashboard list. -/
structure BotState where
  seenHashes : List String
  seenFile : List String
  recentItems : List RecentRec

/-- Observable side effects of one `process_item` call, in program order:
inserting into the in-memory seen set, appending a line to `seen_items.txt`,
the single Telegram dispatch attempt (with its optional photo URL), a logged
Telegram failure, the optional spreadsheet `append_row`, and the
`recent_items` insertion. -/
inductive Effect where
  | insertSeen (h : String)
  | appendLog (h : String)
  | notify (text : String) (photoUrl : Option String)
  | notifyError
  | sheetAppend (row : List String)
  | cacheInsert
deriving Repr, DecidableEq

def Effect.isNotify : Effect → Bool
  | .notify _ _ => true
  | _ => false

def Effect.isInsertSeen : Effect → Bool
  | .insertSeen _ => true
  | _ => false

def Effect.isAppendLog : Effect → Bool
  | .appendLog _ => true
  | _ => false

def Effect.isSheetAppend : Effect → Bool
  | .sheetAppend _ => true
  | _ => false

def Effect.isCacheInsert : Effect → Bool
  | .cacheInsert => true
  | _ => false

/-- bot.py `send_telegram_message` (lines 167–176): one GET to the provider
(`sendPhoto` when a photo URL is given, else `sendMessage`); any exception is
caught and printed inside the helper, so the caller always sees a normal
return.  `fails` says whether this attempt's request raises; the returned
trace records the single attempt and, on failure, the logged error. -/
def send_telegram_message (fails : Bool) (text : String) (photoUrl : Option String) : List Effect :=
  Effect.notify text photoUrl :: (if fails then [Effect.notifyError] else [])

/-- bot.py lines 241–243: `recent_items.insert(0, rec)` then
`if len(recent_items) > MAX_RECENT: recent_items.pop()` — `pop()` with no
argument removes the last (oldest) element.  `MAX_RECENT = 200`. -/
def cacheInsert (rec : RecentRec) (l : List RecentRec) : List RecentRec :=
  let l2 := rec :: l
  if l2.length > 200 then l2.dropLast else l2

/-- Folding `cacheInsert` over a list of records, oldest first — the shape of
repeated `process_item` cache updates. -/
def insertAll (recs : List RecentRec) (l : List RecentRec) : List RecentRec :=
  recs.foldl (fun acc r => cacheInsert r acc) l

/-- bot.py `process_item` (lines 179–249), as a pure transformer.
Parameters stand for the ambient context: `seed` the process hash salt and
`fallback` its unhashable-title fallback (see `item_hash`), `sheetConfigured`
whether the optional Google sheet is set up, `notifyFails` whether the one
Telegram request raises, `now` the formatted current timestamp.  Returns the
function's boolean result, the updated module state, and the effect trace in
program order.  (The `seen_items.txt` append is modelled as succeeding; its
own failure path only logs and changes no claim-relevant behavior.) -/
def process_item (seed : Nat) (fallback : String) (sheetConfigured notifyFails : Bool)
    (now : String) (spec : SearchSpec) (item : Val) (st : BotState) :
    Bool × BotState × List Effect :=
  let h := item_hash seed fallback item
  if h ∈ st.seenHashes then (false, st, [])
  else
    let st1 : BotState := { st with seenHashes := h :: st.seenHashes }
    let st2 : BotState := { st1 with seenFile := st1.seenFile ++ [h] }
    let title := pyStr (pyOr (item.get "title") (pyOr (item.get "description") (.vstr "Senza titolo")))
    let price_str := priceText item
    let sizesV := pyOr (item.get "size_title") (pyOr (item.get "sizes") (.vstr "N/A"))
    let sizes :=
      match sizesV with
      | .vlist xs => String.intercalate ", " (xs.map pyStr)
      | v => pyStr v
    let condition := pyStr (pyOr (item.get "condition_title") (pyOr (item.get "condition") (.vstr "N/A")))
    let pid := pyOr (item.get "id") (pyOr (item.get "item_id") (.vstr ""))
    let link :=
      if pid.truthy then "https://www.vinted.it/items/" ++ pyStr pid
      else pyStr (pyOr (item.get "url") (pyOr (item.get "permalink") (.vstr "N/A")))
    let photoV := extract_photo_url item
    let photoUrl : Option String :=
      match photoV with
      | some v => if v.truthy then some (pyStr v) else none
      | none => none
    let text :=
      "🔥 NUOVA OFFERTA!\n" ++ spec.brand ++ " - " ++ spec.category ++
      "\n💶 Prezzo: " ++ price_str ++ "€\n📌 " ++ title ++
      "\n🎽 Taglia: " ++ sizes ++ "\n🔧 Condizione: " ++ condition ++
      "\n🕒 Trovato il: " ++ now ++ "\n🔗 " ++ link
    let notifyTrace := send_telegram_message notifyFails text photoUrl
    let sheetTrace :=
      if sheetConfigured then
        [Effect.sheetAppend [pyStr pid, spec.brand, spec.category, price_str, title, sizes, condition, link, now, "Trovato"]]
      else []
    let rec_ : RecentRec := ⟨pid, spec.brand, spec.category, price_str, title, sizes, condition, link, now, "Trovato"⟩
    let st3 : BotState := { st2 with recentItems := cacheInsert rec_ st2.recentItems }
    (true, st3, [Effect.insertSeen h, Effect.appendLog h] ++ notifyTrace ++ sheetTrace ++ [Effect.cacheInsert])

/-- One HTTP response as seen by `scraper_loop`: the status code (which the
`requests` response object carries) and the body, `none` when the body does
not parse as JSON (`resp.json()` raises). -/
structure Response where
  status : Nat
  body : Option Val

/-- bot.py lines 266–270: `items = data.get("items") or data.get("data") or
[]`, then unwrap a one-level `{"items": [...]}` nesting. -/
def extractItems (data : Val) : Val :=
  let items := pyOr (data.get "items") (pyOr (data.get "data") (.vlist []))
  match items with
  | .vdict kvs =>
    if (Val.vdict kvs).hasKey "items" then (Val.vdict kvs).getD "items" (.vlist []) else .vdict kvs
  | v => v

/-- The elements iterated by `for it in items:` — the provider's containers
are JSON arrays; a non-list value here is outside the claims' scope and
yields no iterations. -/
def itemsList : Val → List Val
  | .vlist xs => xs
  | _ => []

/-- bot.py lines 277–281: unwrap a `{"item": {...}}` wrapper one level. -/
def candidateOf (it : Val) : Val :=
  if it.hasKey "item" then
    match it.get "item" with
    | .vdict kvs => .vdict kvs
    | _ => it
  else it

/-- One spec's iteration of the `for spec, url in zip(...)` body of
`scraper_loop` (bot.py lines 256–287): a body that fails to parse as JSON hits
the inner `except` and `continue`s; otherwise the extracted items (none ⇒
`continue`) are each unwrapped and run through `process_item`, threading the
module state and concatenating the effect traces.  The HTTP status code is
never consulted anywhere in this body. -/
def processSpec (seed : Nat) (fallback : String) (sheetConfigured notifyFails : Bool)
    (now : String) (spec : SearchSpec) (resp : Response) (st : BotState) :
    BotState × List Effect :=
  match resp.body with
  | none => (st, [])
  | some data =>
    let items := itemsList (extractItems data)
    if items.isEmpty then (st, [])
    else
      items.foldl
        (fun (acc : BotState × List Effect) it =>
          let r := process_item seed fallback sheetConfigured notifyFails now spec (candidateOf it) acc.1
          (r.2.1, acc.2 ++ r.2.2))
        (st, [])

/-- One full catalog pass of `scraper_loop`: fold `processSpec` over the
specs in order, pairing each with its cycle's response. -/
def processCycle (seed : Nat) (fallback : String) (sheetConfigured notifyFails : Bool)
    (now : String) (inputs : List (SearchSpec × Response)) (st : BotState) :
    BotState × List Effect :=
  inputs.foldl
    (fun (acc : BotState × List Effect) sr =>
      let r := processSpec seed fallback sheetConfigured notifyFails now sr.1 sr.2 acc.1
      (r.1, acc.2 ++ r.2))
    (st, [])

/-- Whether, in an effect trace containing both, the `seen_items.txt` append
occurs strictly before the in-memory seen-set insertion. -/
def appendBeforeInsert (tr : List Effect) : Prop :=
  (tr.findIdx Effect.isAppendLog < tr.length ∧ tr.findIdx Effect.isInsertSeen < tr.length) ∧
  tr.findIdx Effect.isAppendLog < tr.findIdx Effect.isInsertSeen

instance (tr : List Effect) : Decidable (appendBeforeInsert tr) := by
  unfold appendBeforeInsert; infer_instance

/-- A numbered dashboard record, used to instantiate the 201-insert scenario. -/
def mkRec (i : Nat) : RecentRec :=
  ⟨.vint i, "Nike", "tuta", "19.99", "title", "size", "cond", "link", "ts", "Trovato"⟩

/-- C1: the fingerprint depends only on the resolved `(id, title, price)`
fields and is deterministic within one process (same seed): at a concrete
item the hash is unchanged by extra fields or by the unused fallback.  But
the claim's second half fails: because the dedup key is Python's per-process
salted `hash`, the same triple hashed under two different process seeds
(i.e. across a restart) yields different fingerprints, so a persisted
fingerprint need not match the same item after reload. -/
theorem c1_fingerprint_process_salted :
    (item_hash 0 "fallbackA"
        (.vdict [("id", .vstr "123"), ("title", .vstr "Nike tuta"), ("price", .vstr "19.99")]) =
      item_hash 0 "fallbackB"
        (.vdict [("id", .vstr "123"), ("title", .vstr "Nike tuta"), ("price", .vstr "19.99"), ("brand", .vstr "Nike")])) ∧
    item_hash 0 "t"
        (.vdict [("id", .vstr "123"), ("title", .vstr "Nike tuta"), ("price", .vstr "19.99")]) ≠
      item_hash 1 "t"
        (.vdict [("id", .vstr "123"), ("title", .vstr "Nike tuta"), ("price", .vstr "19.99")]) := by
  constructor
  · decide
  · decide

/-- C6: price normalization — a bare numeric or string price, or a dict
price consulting `amount`/`value`/`raw` in order; a value that parses as a
number is formatted with exactly two decimal places (a dot followed by
exactly two characters), a non-parsing value is kept as its raw string, an
absent price yields the sentinel "N/A"; in particular
`{price: {amount: "19.99"}}` gives "19.99", `{price: 19}` gives "19.00",
and `{price: "n/a"}` gives "n/a". -/
theorem c6_price_normalization (item parsedItem : Val) (d : DecNum)
    (hp : pyFloat (resolvePrice parsedItem) = some d) :
    priceText (.vdict [("price", .vdict [("amount", .vstr "19.99")])]) = "19.99" ∧
    priceText (.vdict [("price", .vint 19)]) = "19.00" ∧
    priceText (.vdict [("price", .vstr "n/a")]) = "n/a" ∧
    priceText (.vdict []) = "N/A" ∧
    priceText parsedItem = formatTwoDec d ∧
    (∃ a bc, priceText parsedItem = a ++ "." ++ bc ∧ bc.length = 2) ∧
    (pyFloat (resolvePrice item) = none → priceText item = pyStr (resolvePrice item)) := by
  refine ⟨by decide, by decide, by decide, by decide, ?_, ?_, ?_⟩
  · simp [priceText, hp]
  · refine ⟨(if d.num < 0 then "-" else "") ++ toString ((d.num.natAbs * 100 + d.den / 2) / d.den / 100),
      String.mk [Nat.digitChar ((d.num.natAbs * 100 + d.den / 2) / d.den / 10 % 10),
        Nat.digitChar ((d.num.natAbs * 100 + d.den / 2) / d.den % 10)], ?_, rfl⟩
    simp [priceText, hp, formatTwoDec, String.append_assoc]
  · intro h
    simp [priceText, h]

/-- C6 witness: the parsing hypothesis holds at the concrete item
`{price: 19}`, whose normalized price is the two-decimal rendering of 19. -/
theorem c6_price_normalization_witness :
    pyFloat (resolvePrice (.vdict [("price", .vint 19)])) = some ⟨19, 1⟩ ∧
    priceText (.vdict [("price", .vint 19)]) = formatTwoDec ⟨19, 1⟩ :=
  ⟨by decide, (c6_price_normalization (.vdict []) (.vdict [("price", .vint 19)]) ⟨19, 1⟩ (by decide)).2.2.2.2.1⟩

/-- C10: a price field that is present but falsy (the number 0 or the empty
string) is treated as absent: resolution falls through to `price_amount`
and, failing that, yields the sentinel "N/A" rather than "0.00". -/
theorem c10_falsy_price_yields_sentinel :
    priceText (.vdict [("price", .vint 0)]) = "N/A" ∧
    priceText (.vdict [("price", .vstr "")]) = "N/A" ∧
    resolvePrice (.vdict [("price", .vint 0)]) = .vstr "N/A" ∧
    priceText (.vdict [("price", .vint 0), ("price_amount", .vint 15)]) = "15.00" ∧
    priceText (.vdict [("price", .vstr ""), ("price_amount", .vstr "12.5")]) = "12.50" := by
  exact ⟨by decide, by decide, rfl, by decide, by decide⟩

/-- C7: photo extraction follows the ordered fallback — the `photos` list is
examined first and a dict entry yields its first populated field in priority
order url_fullxfull > url_full > url > xlarge > thumb (so
`photos: [{url_fullxfull: a, url: b}]` extracts `a`); a bare-string list
entry is returned as-is; otherwise a single `main_photo` dict field is used;
a falsy item yields none. -/
theorem c7_photo_precedence (a b : String) (ha : a.isEmpty = false) :
    extract_photo_url (.vdict [("photos", .vlist [.vdict [("url_fullxfull", .vstr a), ("url", .vstr b)]])]) = some (.vstr a) ∧
    extract_photo_url (.vdict [("photos", .vlist [.vstr a])]) = some (.vstr a) ∧
    extract_photo_url (.vdict [("main_photo", .vdict [("url", .vstr a)])]) = some (.vstr a) ∧
    extract_photo_url (.vdict []) = none := by
  refine ⟨?_, ?_, ?_, rfl⟩
  · simp [extract_photo_url, pyOr, Val.get, Val.truthy, scanPhotoList, firstTruthyKey, photoKeys, ha]
  · simp [extract_photo_url, pyOr, Val.get, Val.truthy, scanPhotoList, ha]
  · simp [extract_photo_url, pyOr, Val.get, Val.truthy, firstTruthyKey, mainPhotoKeys, ha]

/-- C7 witness: the populated-field hypothesis holds for "A", and
`photos: [{url_fullxfull: "A", url: "B"}]` extracts "A". -/
theorem c7_photo_precedence_witness :
    "A".isEmpty = false ∧
    extract_photo_url (.vdict [("photos", .vlist [.vdict [("url_fullxfull", .vstr "A"), ("url", .vstr "B")]])]) = some (.vstr "A") :=
  ⟨by decide, (c7_photo_precedence "A" "B" (by decide)).1⟩

/-- C9: the URL builder is a pure function of the spec; for
`{brand: "Nike", category: "tuta", priceCeiling: 35}` the resulting URL
contains `search_text=Nike+tuta` and `price_to=35` as substrings, the space
in "Nike tuta" having been replaced by `+`. -/
theorem c9_build_url :
    (∃ p s, build_url "Nike" "tuta" 35 = p ++ "search_text=Nike+tuta" ++ s) ∧
    (∃ p s, build_url "Nike" "tuta" 35 = p ++ "price_to=35" ++ s) ∧
    build_url "Nike" "tuta" 35 =
      "https://www.vinted.it/api/v2/catalog/items?search_text=Nike+tuta&price_to=35" ∧
    replaceSpacePlus ("Nike" ++ " " ++ "tuta") = "Nike+tuta" := by
  refine ⟨⟨"https://www.vinted.it/api/v2/catalog/items?", "&price_to=35", by decide⟩,
    ⟨"https://www.vinted.it/api/v2/catalog/items?search_text=Nike+tuta&", "", by decide⟩,
    by decide, by decide⟩

/-- C3 counterexample: at a concrete new item, the effect trace of
`process_item` has the in-memory seen-set insertion at index 0 and the
persisted-log append at index 1, refuting the claimed append-before-insert
ordering. -/
theorem c3_counterexample :
    ¬ appendBeforeInsert
      (process_item 0 "t" true false "ts" ⟨"Nike", "tuta", 35⟩
        (.vdict [("id", .vstr "123"), ("title", .vstr "Nike tuta"), ("price", .vstr "19.99")])
        ⟨[], [], []⟩).2.2 ∧
    ((process_item 0 "t" true false "ts" ⟨"Nike", "tuta", 35⟩
        (.vdict [("id", .vstr "123"), ("title", .vstr "Nike tuta"), ("price", .vstr "19.99")])
        ⟨[], [], []⟩).2.2.findIdx Effect.isInsertSeen = 0 ∧
      (process_item 0 "t" true false "ts" ⟨"Nike", "tuta", 35⟩
        (.vdict [("id", .vstr "123"), ("title", .vstr "Nike tuta"), ("price", .vstr "19.99")])
        ⟨[], [], []⟩).2.2.findIdx Effect.isAppendLog = 1) := by
  exact ⟨by decide, by decide, by decide⟩

/-- C3 amended: in the markSeen step for a new fingerprint, the fingerprint
is first inserted into the in-memory seen set and only afterwards appended
to the persisted log file (insert-before-append, the reverse of the claimed
order). -/
theorem c3_insert_then_append (seed : Nat) (fb : String) (sc nf : Bool) (now : String)
    (spec : SearchSpec) (item : Val) (st : BotState)
    (hnew : item_hash seed fb item ∉ st.seenHashes) :
    (process_item seed fb sc nf now spec item st).2.2.findIdx Effect.isInsertSeen = 0 ∧
    (process_item seed fb sc nf now spec item st).2.2.findIdx Effect.isAppendLog = 1 := by
  simp [process_item, hnew, List.findIdx_cons, Effect.isInsertSeen, Effect.isAppendLog]

/-- C3 amended witness: insert-before-append at a concrete new item on the
empty state. -/
theorem c3_insert_then_append_witness :
    item_hash 0 "t" (.vdict [("id", .vstr "9")]) ∉ ([] : List String) ∧
    ((process_item 0 "t" false false "ts" ⟨"Nike", "tuta", 35⟩ (.vdict [("id", .vstr "9")]) ⟨[], [], []⟩).2.2.findIdx Effect.isInsertSeen = 0 ∧
     (process_item 0 "t" false false "ts" ⟨"Nike", "tuta", 35⟩ (.vdict [("id", .vstr "9")]) ⟨[], [], []⟩).2.2.findIdx Effect.isAppendLog = 1) :=
  ⟨by decide, c3_insert_then_append 0 "t" false false "ts" ⟨"Nike", "tuta", 35⟩ (.vdict [("id", .vstr "9")]) ⟨[], [], []⟩ (by decide)⟩

/-- C2: an item whose fingerprint is in the seen set is skipped with no
notification, no append and no state change; a new item is processed once,
its fingerprint then being in the seen set, so processing it a second time
returns false with no effects — the two runs together dispatch exactly one
notification and exactly one spreadsheet append (when the sheet is
configured, none otherwise). -/
theorem c2_dedup_once (seed : Nat) (fb : String) (sc nf : Bool) (now : String)
    (spec : SearchSpec) (item : Val) (st : BotState)
    (hnew : item_hash seed fb item ∉ st.seenHashes) :
    (∀ st' : BotState, item_hash seed fb item ∈ st'.seenHashes →
      process_item seed fb sc nf now spec item st' = (false, st', [])) ∧
    (process_item seed fb sc nf now spec item st).1 = true ∧
    item_hash seed fb item ∈ (process_item seed fb sc nf now spec item st).2.1.seenHashes ∧
    process_item seed fb sc nf now spec item (process_item seed fb sc nf now spec item st).2.1 =
      (false, (process_item seed fb sc nf now spec item st).2.1, []) ∧
    ((process_item seed fb sc nf now spec item st).2.2 ++
        (process_item seed fb sc nf now spec item
          (process_item seed fb sc nf now spec item st).2.1).2.2).countP Effect.isNotify = 1 ∧
    ((process_item seed fb sc nf now spec item st).2.2 ++
        (process_item seed fb sc nf now spec item
          (process_item seed fb sc nf now spec item st).2.1).2.2).countP Effect.isSheetAppend =
      (if sc then 1 else 0) := by
  have skip : ∀ st' : BotState, item_hash seed fb item ∈ st'.seenHashes →
      process_item seed fb sc nf now spec item st' = (false, st', []) := by
    intro st' hmem
    simp [process_item, hmem]
  have hmem1 : item_hash seed fb item ∈ (process_item seed fb sc nf now spec item st).2.1.seenHashes := by
    simp [process_item, hnew]
  have hsecond := skip _ hmem1
  refine ⟨skip, ?_, hmem1, hsecond, ?_, ?_⟩
  · simp [process_item, hnew]
  · rw [List.countP_append, hsecond]
    cases nf <;> cases sc <;>
      simp [process_item, hnew, send_telegram_message, Effect.isNotify]
  · rw [List.countP_append, hsecond]
    cases nf <;> cases sc <;>
      simp [process_item, hnew, send_telegram_message, Effect.isSheetAppend]



/-- C2 witness: the new-fingerprint hypothesis holds on the empty state at a
concrete item, which is notified once and skipped on the second
presentation. -/
theorem c2_dedup_once_witness :
    item_hash 0 "t" (.vdict [("id", .vstr "c2")]) ∉ ([] : List String) ∧
    ((∀ st' : BotState, item_hash 0 "t" (.vdict [("id", .vstr "c2")]) ∈ st'.seenHashes →
      process_item 0 "t" true false "ts" ⟨"Nike", "felpa", 30⟩ (.vdict [("id", .vstr "c2")]) st' = (false, st', [])) ∧
    (process_item 0 "t" true false "ts" ⟨"Nike", "felpa", 30⟩ (.vdict [("id", .vstr "c2")]) ⟨[], [], []⟩).1 = true ∧
    item_hash 0 "t" (.vdict [("id", .vstr "c2")]) ∈
      (process_item 0 "t" true false "ts" ⟨"Nike", "felpa", 30⟩ (.vdict [("id", .vstr "c2")]) ⟨[], [], []⟩).2.1.seenHashes ∧
    process_item 0 "t" true false "ts" ⟨"Nike", "felpa", 30⟩ (.vdict [("id", .vstr "c2")])
        (process_item 0 "t" true false "ts" ⟨"Nike", "felpa", 30⟩ (.vdict [("id", .vstr "c2")]) ⟨[], [], []⟩).2.1 =
      (false, (process_item 0 "t" true false "ts" ⟨"Nike", "felpa", 30⟩ (.vdict [("id", .vstr "c2")]) ⟨[], [], []⟩).2.1, []) ∧
    ((process_item 0 "t" true false "ts" ⟨"Nike", "felpa", 30⟩ (.vdict [("id", .vstr "c2")]) ⟨[], [], []⟩).2.2 ++
        (process_item 0 "t" true false "ts" ⟨"Nike", "felpa", 30⟩ (.vdict [("id", .vstr "c2")])
          (process_item 0 "t" true false "ts" ⟨"Nike", "felpa", 30⟩ (.vdict [("id", .vstr "c2")]) ⟨[], [], []⟩).2.1).2.2).countP
        Effect.isNotify = 1 ∧
    ((process_item 0 "t" true false "ts" ⟨"Nike", "felpa", 30⟩ (.vdict [("id", .vstr "c2")]) ⟨[], [], []⟩).2.2 ++
        (process_item 0 "t" true false "ts" ⟨"Nike", "felpa", 30⟩ (.vdict [("id", .vstr "c2")])
          (process_item 0 "t" true false "ts" ⟨"Nike", "felpa", 30⟩ (.vdict [("id", .vstr "c2")]) ⟨[], [], []⟩).2.1).2.2).countP
        Effect.isSheetAppend = (if true then 1 else 0)) :=
  ⟨by decide, c2_dedup_once 0 "t" true false "ts" ⟨"Nike", "felpa", 30⟩ (.vdict [("id", .vstr "c2")]) ⟨[], [], []⟩ (by decide)⟩

/-- C8: a notification failure is absorbed inside `send_telegram_message`:
for a new item, the returned flag and the updated state (seen-set insertion,
persisted-log append, recent-cache insertion) are identical whether the
notify request fails or succeeds, with exactly one dispatch attempt and no
retry in either case. -/
theorem c8_notify_failure_absorbed (seed : Nat) (fb : String) (sc : Bool) (now : String)
    (spec : SearchSpec) (item : Val) (st : BotState)
    (hnew : item_hash seed fb item ∉ st.seenHashes) :
    (process_item seed fb sc false now spec item st).2.1 =
      (process_item seed fb sc true now spec item st).2.1 ∧
    (process_item seed fb sc false now spec item st).1 =
      (process_item seed fb sc true now spec item st).1 ∧
    (process_item seed fb sc true now spec item st).2.1.seenHashes =
      item_hash seed fb item :: st.seenHashes ∧
    (process_item seed fb sc true now spec item st).2.1.seenFile =
      st.seenFile ++ [item_hash seed fb item] ∧
    (process_item seed fb sc true now spec item st).2.2.countP Effect.isNotify = 1 ∧
    (process_item seed fb sc false now spec item st).2.2.countP Effect.isNotify = 1 ∧
    (process_item seed fb sc true now spec item st).2.2.countP Effect.isCacheInsert = 1 ∧
    (process_item seed fb sc false now spec item st).2.2.countP Effect.isCacheInsert = 1 ∧
    (process_item seed fb sc true now spec item st).2.2.countP Effect.isAppendLog = 1 := by
  refine ⟨?_, ?_, ?_, ?_, ?_, ?_, ?_, ?_, ?_⟩ <;>
    cases sc <;>
      simp [process_item, hnew, send_telegram_message,
        Effect.isNotify, Effect.isCacheInsert, Effect.isAppendLog]

/-- C8 witness: at a concrete new item, notify-failure and notify-success
runs produce the same state, each with exactly one dispatch attempt. -/
theorem c8_notify_failure_absorbed_witness :
    item_hash 0 "t" (.vdict [("id", .vstr "c8")]) ∉ ([] : List String) ∧
    ((process_item 0 "t" true false "ts" ⟨"Adidas", "tuta", 35⟩ (.vdict [("id", .vstr "c8")]) ⟨[], [], []⟩).2.1 =
      (process_item 0 "t" true true "ts" ⟨"Adidas", "tuta", 35⟩ (.vdict [("id", .vstr "c8")]) ⟨[], [], []⟩).2.1 ∧
    (process_item 0 "t" true false "ts" ⟨"Adidas", "tuta", 35⟩ (.vdict [("id", .vstr "c8")]) ⟨[], [], []⟩).1 =
      (process_item 0 "t" true true "ts" ⟨"Adidas", "tuta", 35⟩ (.vdict [("id", .vstr "c8")]) ⟨[], [], []⟩).1 ∧
    (process_item 0 "t" true true "ts" ⟨"Adidas", "tuta", 35⟩ (.vdict [("id", .vstr "c8")]) ⟨[], [], []⟩).2.1.seenHashes =
      item_hash 0 "t" (.vdict [("id", .vstr "c8")]) :: ([] : List String) ∧
    (process_item 0 "t" true true "ts" ⟨"Adidas", "tuta", 35⟩ (.vdict [("id", .vstr "c8")]) ⟨[], [], []⟩).2.1.seenFile =
      ([] : List String) ++ [item_hash 0 "t" (.vdict [("id", .vstr "c8")])] ∧
    (process_item 0 "t" true true "ts" ⟨"Adidas", "tuta", 35⟩ (.vdict [("id", .vstr "c8")]) ⟨[], [], []⟩).2.2.countP Effect.isNotify = 1 ∧
    (process_item 0 "t" true false "ts" ⟨"Adidas", "tuta", 35⟩ (.vdict [("id", .vstr "c8")]) ⟨[], [], []⟩).2.2.countP Effect.isNotify = 1 ∧
    (process_item 0 "t" true true "ts" ⟨"Adidas", "tuta", 35⟩ (.vdict [("id", .vstr "c8")]) ⟨[], [], []⟩).2.2.countP Effect.isCacheInsert = 1 ∧
    (process_item 0 "t" true false "ts" ⟨"Adidas", "tuta", 35⟩ (.vdict [("id", .vstr "c8")]) ⟨[], [], []⟩).2.2.countP Effect.isCacheInsert = 1 ∧
    (process_item 0 "t" true true "ts" ⟨"Adidas", "tuta", 35⟩ (.vdict [("id", .vstr "c8")]) ⟨[], [], []⟩).2.2.countP Effect.isAppendLog = 1) :=
  ⟨by decide, c8_notify_failure_absorbed 0 "t" true "ts" ⟨"Adidas", "tuta", 35⟩ (.vdict [("id", .vstr "c8")]) ⟨[], [], []⟩ (by decide)⟩

theorem cacheInsert_eq_take (r : RecentRec) (l : List RecentRec) (h : l.length ≤ 200) :
    cacheInsert r l = (r :: l).take 200 := by
  unfold cacheInsert
  by_cases h200 : l.length = 200
  · rw [if_pos (by simp [h200])]
    rw [List.dropLast_eq_take]
    simp [h200]
  · rw [if_neg (by simp; omega)]
    rw [List.take_of_length_le (by simp; omega)]

theorem cacheInsert_length_le (r : RecentRec) (l : List RecentRec) (h : l.length ≤ 200) :
    (cacheInsert r l).length ≤ 200 := by
  rw [cacheInsert_eq_take r l h]
  simp

theorem insertAll_eq_take (recs : List RecentRec) :
    ∀ l : List RecentRec, l.length ≤ 200 → insertAll recs l = (recs.reverse ++ l).take 200 := by
  induction recs with
  | nil => intro l h; simp [insertAll, List.take_of_length_le h]
  | cons r rs ih =>
    intro l h
    have h1 : (cacheInsert r l).length ≤ 200 := cacheInsert_length_le r l h
    have : insertAll (r :: rs) l = insertAll rs (cacheInsert r l) := by
      simp [insertAll]
    rw [this, ih _ h1, cacheInsert_eq_take r l h]
    have hsplit : (r :: rs).reverse ++ l = rs.reverse ++ (r :: l) := by simp
    rw [hsplit, List.take_append_eq_append_take, List.take_append_eq_append_take, List.take_take]
    congr 2
    omega



/-- C4: after an insert into a recent cache of at most 200 entries the cache
still holds at most 200 entries and the new entry is at the front; after
inserting 201 distinct entries in order into the empty cache, the result has
exactly 200 entries, the 201st (last-inserted) entry is at the front, and
the first-inserted entry is absent. -/
theorem c4_recent_cache_bounded (r r0 : RecentRec) (l rest : List RecentRec)
    (hl : l.length ≤ 200) (hrest : rest.length = 200) (h0 : r0 ∉ rest) :
    (cacheInsert r l).length ≤ 200 ∧
    (cacheInsert r l).head? = some r ∧
    (insertAll (r0 :: rest) []).length = 200 ∧
    (insertAll (r0 :: rest) []).head? = (r0 :: rest).getLast? ∧
    r0 ∉ insertAll (r0 :: rest) [] := by
  have key : insertAll (r0 :: rest) [] = rest.reverse := by
    rw [insertAll_eq_take _ _ (by simp)]
    simp only [List.reverse_cons, List.append_nil]
    exact List.take_left' (by simp [hrest])
  refine ⟨cacheInsert_length_le r l hl, ?_, ?_, ?_, ?_⟩
  · show (if (r :: l).length > 200 then (r :: l).dropLast else (r :: l)).head? = some r
    by_cases hc : (r :: l).length > 200
    · rw [if_pos hc, List.head?_dropLast, if_pos (by simp at hc ⊢; omega)]
      rfl
    · rw [if_neg hc]
      rfl
  · simp [key, hrest]
  · cases rest with
    | nil => simp at hrest
    | cons x xs => rw [key, List.head?_reverse, List.getLast?_cons_cons]
  · rw [key]
    simpa [List.mem_reverse] using h0

/-- C4 witness: the scenario hypotheses hold for the concrete family of 201
pairwise-distinct numbered records inserted into the empty cache. -/
theorem c4_recent_cache_bounded_witness :
    (([] : List RecentRec).length ≤ 200 ∧
      ((List.range 200).map (fun i => mkRec (i + 1))).length = 200 ∧
      mkRec 0 ∉ (List.range 200).map (fun i => mkRec (i + 1))) ∧
    ((cacheInsert (mkRec 0) []).length ≤ 200 ∧
      (cacheInsert (mkRec 0) []).head? = some (mkRec 0) ∧
      (insertAll (mkRec 0 :: (List.range 200).map (fun i => mkRec (i + 1))) []).length = 200 ∧
      (insertAll (mkRec 0 :: (List.range 200).map (fun i => mkRec (i + 1))) []).head? =
        (mkRec 0 :: (List.range 200).map (fun i => mkRec (i + 1))).getLast? ∧
      mkRec 0 ∉ insertAll (mkRec 0 :: (List.range 200).map (fun i => mkRec (i + 1))) []) := by
  have hnotmem : mkRec 0 ∉ (List.range 200).map (fun i => mkRec (i + 1)) := by
    intro hmem
    simp only [List.mem_map, List.mem_range] at hmem
    obtain ⟨i, -, heq⟩ := hmem
    have : Val.vint (i + 1) = Val.vint 0 := congrArg RecentRec.rid heq
    simp at this
    omega
  exact ⟨⟨by simp, by simp, hnotmem⟩,
    c4_recent_cache_bounded (mkRec 0) (mkRec 0) []
      ((List.range 200).map (fun i => mkRec (i + 1))) (by simp) (by simp) hnotmem⟩

/-- C5 counterexample: a response with non-success HTTP status 500 whose
body parses as JSON containing an item yields a non-empty item sequence and
a notification with a seen-set change — the status code is never consulted,
refuting the claim that a non-success status skips the spec. -/
theorem c5_counterexample :
    (Response.mk 500 (some (.vdict [("items", .vlist [.vdict [("id", .vstr "1"), ("title", .vstr "x"), ("price", .vstr "5")]])]))).status = 500 ∧
    (processSpec 0 "t" false false "ts" ⟨"Nike", "tuta", 35⟩
        (Response.mk 500 (some (.vdict [("items", .vlist [.vdict [("id", .vstr "1"), ("title", .vstr "x"), ("price", .vstr "5")]])])))
        ⟨[], [], []⟩).2.countP Effect.isNotify = 1 ∧
    (processSpec 0 "t" false false "ts" ⟨"Nike", "tuta", 35⟩
        (Response.mk 500 (some (.vdict [("items", .vlist [.vdict [("id", .vstr "1"), ("title", .vstr "x"), ("price", .vstr "5")]])])))
        ⟨[], [], []⟩).1.seenHashes ≠ [] ∧
    itemsList (extractItems (.vdict [("items", .vlist [.vdict [("id", .vstr "1"), ("title", .vstr "x"), ("price", .vstr "5")]])])) ≠ [] := by
  exact ⟨rfl, by decide, by decide, fun h => absurd (congrArg List.length h) (by decide)⟩

/-- C5 amended: if the response body fails to parse as JSON the spec is
skipped for the cycle — empty result, no notification, no seen-set or cache
change — and the catalog pass continues with the remaining specs unchanged;
the HTTP status code is never consulted (two responses differing only in
status behave identically). -/
theorem c5_skip_on_parse_failure (seed : Nat) (fb : String) (sc nf : Bool) (now : String)
    (spec : SearchSpec) (resp : Response) (st : BotState) (hbad : resp.body = none)
    (s1 s2 : Nat) (b : Option Val) (rest : List (SearchSpec × Response)) :
    processSpec seed fb sc nf now spec resp st = (st, []) ∧
    processSpec seed fb sc nf now spec ⟨s1, b⟩ st = processSpec seed fb sc nf now spec ⟨s2, b⟩ st ∧
    processCycle seed fb sc nf now ((spec, resp) :: rest) st =
      processCycle seed fb sc nf now rest st := by
  have h1 : processSpec seed fb sc nf now spec resp st = (st, []) := by
    simp [processSpec, hbad]
  refine ⟨h1, rfl, ?_⟩
  simp [processCycle, h1]

/-- C5 witness: a 404 response with an unparseable body is skipped on the
empty state, status is ignored, and the cycle continues. -/
theorem c5_skip_on_parse_failure_witness :
    (Response.mk 404 none).body = none ∧
    (processSpec 0 "t" true false "ts" ⟨"Nike", "tuta", 35⟩ (Response.mk 404 none) ⟨[], [], []⟩ =
      (⟨[], [], []⟩, []) ∧
    processSpec 0 "t" true false "ts" ⟨"Nike", "tuta", 35⟩ ⟨200, none⟩ ⟨[], [], []⟩ =
      processSpec 0 "t" true false "ts" ⟨"Nike", "tuta", 35⟩ ⟨500, none⟩ ⟨[], [], []⟩ ∧
    processCycle 0 "t" true false "ts" [(⟨"Nike", "tuta", 35⟩, Response.mk 404 none)] ⟨[], [], []⟩ =
      processCycle 0 "t" true false "ts" [] ⟨[], [], []⟩) :=
  ⟨rfl, c5_skip_on_parse_failure 0 "t" true false "ts" ⟨"Nike", "tuta", 35⟩ (Response.mk 404 none)
    ⟨[], [], []⟩ rfl 200 500 none []⟩

end VintedBot
